import Mathlib

/-!
Shallow embedding of `src/static/js/cors-fixer.js`.

The file defines two browser-side operations:

* `checkImageExists(url, callback, timeout = 5000)` — creates a fresh
  `Image`, arms a `setTimeout` timer, installs `onload` / `onerror`
  handlers, sets `crossOrigin = "anonymous"` and then `src = url`.
  The timer handler warns and calls `callback(false)`; `onload` clears
  the timer and calls `callback(true)`; `onerror` clears the timer,
  warns and calls `callback(false)`.

* `preloadImage(url, timeout = 5000)` — same structure, but wrapped in a
  `new Promise((resolve, reject) => ...)`: the timer handler warns and
  rejects, `onload` clears the timer and resolves with `url`, `onerror`
  clears the timer, warns and rejects.

The asynchronous part is modelled as a small operational semantics: the
host event loop delivers a sequence of events to a probe (timer firing,
native load success, native load error), and the probe state is the fold
of the handler bodies over that sequence.  A JS `setTimeout` timer fires
at most once and never after `clearTimeout`; a single native image load
reports at most one of load/error.  Both host facts are captured by the
`ValidTrace` predicate together with the `timerActive` guard inside the
step functions (a delivered `timerFire` on a cleared timer is a no-op,
which is exactly `clearTimeout` semantics).

JS promises settle at most once: `resolve`/`reject` on an already
settled promise is a silent no-op.  The `settle` function below encodes
exactly that primitive; the recorded `attempts` list keeps every
`resolve`/`reject` call the code makes so that late calls remain visible
to the theorems even though they do not change the promise.
-/

namespace CorsFixer

/-- Events the host event loop can deliver to a single probe: the armed
`setTimeout` timer coming due, or the native image load finishing with
success or error. -/
inductive Ev
  | timerFire
  | loadSuccess
  | loadError
deriving DecidableEq, Repr

/-- Host guarantees on one probe's event sequence: the timer comes due at
most once, and the single native image load settles at most once (it
reports success or error, never both, never twice). -/
def ValidTrace (evts : List Ev) : Prop :=
  evts.count Ev.timerFire ≤ 1 ∧
  evts.count Ev.loadSuccess + evts.count Ev.loadError ≤ 1

instance (evts : List Ev) : Decidable (ValidTrace evts) := by
  unfold ValidTrace; infer_instance

/-- Observable state of one `checkImageExists` probe: whether the timer
is still armed (`clearTimeout` has not run and the timer has not fired),
the list of `callback` invocations in order, and the `console.warn`
messages in order. -/
structure CheckSt where
  timerActive : Bool
  callbacks : List Bool
  warns : List String
deriving DecidableEq, Repr

/-- Probe state right after the synchronous part of `checkImageExists`
returns: timer armed, no callback yet, no warning yet. -/
def checkInit : CheckSt :=
  { timerActive := true, callbacks := [], warns := [] }

/-- Handler bodies of `checkImageExists` (cors-fixer.js lines 11-25).
The timer body runs only while the timer is armed; it warns
`Image check timeout: ${url}` and calls `callback(false)`, and does not
touch the image handlers.  `onload` runs `clearTimeout(timer)` then
`callback(true)`.  `onerror` runs `clearTimeout(timer)`, warns
`Image failed to load: ${url}` and calls `callback(false)`. -/
def checkStep (url : String) (s : CheckSt) : Ev → CheckSt
  | Ev.timerFire =>
      if s.timerActive then
        { timerActive := false
          callbacks := s.callbacks ++ [false]
          warns := s.warns ++ ["Image check timeout: " ++ url] }
      else s
  | Ev.loadSuccess =>
      { timerActive := false
        callbacks := s.callbacks ++ [true]
        warns := s.warns }
  | Ev.loadError =>
      { timerActive := false
        callbacks := s.callbacks ++ [false]
        warns := s.warns ++ ["Image failed to load: " ++ url] }

/-- Run one `checkImageExists` probe over the event sequence the host
delivers to it. -/
def runCheck (url : String) (evts : List Ev) : CheckSt :=
  evts.foldl (checkStep url) checkInit

/-- Settlement value of the promise returned by `preloadImage`. -/
inductive Settle
  | fulfilled (v : String)
  | rejected (msg : String)
deriving DecidableEq, Repr

/-- Tests whether a settlement attempt is a rejection. -/
def Settle.isRejected : Settle → Bool
  | Settle.fulfilled _ => false
  | Settle.rejected _ => true

/-- Observable state of one `preloadImage` probe.  `promise` is the
settled value of the returned promise (`none` while pending); `attempts`
records every `resolve`/`reject` call the handlers make, in order;
`settleCount` counts the calls that actually settled the promise;
`lateTimerFires` counts executions of the timer body at a moment the
promise was already settled (the spec says this never happens). -/
structure PreloadSt where
  timerActive : Bool
  promise : Option Settle
  attempts : List Settle
  settleCount : Nat
  lateTimerFires : Nat
  warns : List String
deriving DecidableEq, Repr

/-- Probe state right after `preloadImage` returns its pending promise. -/
def preloadInit : PreloadSt :=
  { timerActive := true, promise := none, attempts := [], settleCount := 0
    lateTimerFires := 0, warns := [] }

/-- JS promise primitive: `resolve`/`reject` settles the promise if it is
still pending and is a silent no-op otherwise.  Every call is recorded in
`attempts`. -/
def settle (s : PreloadSt) (v : Settle) : PreloadSt :=
  match s.promise with
  | some _ => { s with attempts := s.attempts ++ [v] }
  | none =>
      { s with attempts := s.attempts ++ [v], promise := some v
               settleCount := s.settleCount + 1 }

/-- Handler bodies of `preloadImage` (cors-fixer.js lines 38-52).  The
timer body warns `Image load timeout: ${url}` and rejects with an error
carrying the same message.  `onload` clears the timer and resolves with
`url`.  `onerror` clears the timer, warns `Failed to load image: ${url}`
and rejects with an error carrying the same message. -/
def preloadStep (url : String) (s : PreloadSt) : Ev → PreloadSt
  | Ev.timerFire =>
      if s.timerActive then
        settle
          { s with timerActive := false
                   lateTimerFires :=
                     s.lateTimerFires + (if s.promise.isSome then 1 else 0)
                   warns := s.warns ++ ["Image load timeout: " ++ url] }
          (Settle.rejected ("Image load timeout: " ++ url))
      else s
  | Ev.loadSuccess =>
      settle { s with timerActive := false } (Settle.fulfilled url)
  | Ev.loadError =>
      settle
        { s with timerActive := false
                 warns := s.warns ++ ["Failed to load image: " ++ url] }
        (Settle.rejected ("Failed to load image: " ++ url))

/-- Run one `preloadImage` probe over the event sequence the host
delivers to it. -/
def runPreload (url : String) (evts : List Ev) : PreloadSt :=
  evts.foldl (preloadStep url) preloadInit

/-- Trace observation: the timer comes due before any native load event,
so the timer body is the first handler to run.  On a `ValidTrace` every
event is one of the three kinds and each load outcome occurs at most
once, so this is equivalent to the trace starting with `timerFire`. -/
def timedOutFirst (evts : List Ev) : Bool :=
  evts.head? == some Ev.timerFire

/-- Trace observation: the outcome the native image load reports, if
any (the first non-timer event of the trace). -/
def loadOutcome (evts : List Ev) : Option Ev :=
  (evts.filter (fun e => e != Ev.timerFire)).head?

/-- Closed-form description of the `callback` invocations of a
`checkImageExists` probe, stated from the trace observations alone: one
`false` if the timer comes due first, followed by the value matching the
native load outcome when one arrives (`true` on success, `false` on
error) — even when that outcome arrives after the timeout. -/
def checkCallbacksSpec (evts : List Ev) : List Bool :=
  (if timedOutFirst evts then [false] else []) ++
  (match loadOutcome evts with
   | some Ev.loadSuccess => [true]
   | some Ev.loadError => [false]
   | _ => [])

/-- Closed-form description of the settled value of the promise returned
by `preloadImage`, stated from the trace observations alone: the first
handler to run settles the promise and later handlers cannot change it. -/
def preloadOutcomeSpec (url : String) (evts : List Ev) : Option Settle :=
  if timedOutFirst evts then
    some (Settle.rejected ("Image load timeout: " ++ url))
  else
    match loadOutcome evts with
    | some Ev.loadSuccess => some (Settle.fulfilled url)
    | some Ev.loadError => some (Settle.rejected ("Failed to load image: " ++ url))
    | _ => none

/-- Every event is one of the three kinds, so a list's length is the sum
of the three counts. -/
lemma length_eq_counts (l : List Ev) :
    l.length =
      l.count Ev.timerFire + l.count Ev.loadSuccess + l.count Ev.loadError := by
  induction l with
  | nil => simp
  | cons a t ih =>
      cases a <;> simp [List.count_cons, ih] <;> omega

/-- A valid trace delivers at most two events: at most one timer firing
and at most one load outcome. -/
lemma valid_length_le_two {l : List Ev} (h : ValidTrace l) : l.length ≤ 2 := by
  obtain ⟨h1, h2⟩ := h
  have := length_eq_counts l
  omega

/-- Enumeration of the valid traces of a single probe. -/
lemma valid_trace_enum {l : List Ev} (h : ValidTrace l) :
    l = [] ∨ l = [Ev.timerFire] ∨ l = [Ev.loadSuccess] ∨ l = [Ev.loadError] ∨
    l = [Ev.timerFire, Ev.loadSuccess] ∨ l = [Ev.timerFire, Ev.loadError] ∨
    l = [Ev.loadSuccess, Ev.timerFire] ∨ l = [Ev.loadError, Ev.timerFire] := by
  have hlen := valid_length_le_two h
  cases l with
  | nil => simp
  | cons a t =>
      cases t with
      | nil => cases a <;> simp
      | cons b t2 =>
          cases t2 with
          | nil => cases a <;> cases b <;> revert h <;> decide
          | cons c t3 => simp at hlen

/-- Property assignments the synchronous part of each operation performs
on its freshly created `Image` element, in source order. -/
inductive SetupAction
  | setOnload
  | setOnerror
  | setCrossOrigin (v : String)
  | setSrc (v : String)
deriving DecidableEq, Repr

/-- Observable fields of a native `Image` element, as far as the utility
touches them.  A fresh `new Image()` has no handlers, no `crossOrigin`
and no `src`. -/
structure ImgElem where
  crossOrigin : Option String := none
  src : Option String := none
  hasOnload : Bool := false
  hasOnerror : Bool := false
deriving DecidableEq, Repr

/-- Effect of one property assignment on the image element. -/
def applyAction (img : ImgElem) : SetupAction → ImgElem
  | SetupAction.setOnload => { img with hasOnload := true }
  | SetupAction.setOnerror => { img with hasOnerror := true }
  | SetupAction.setCrossOrigin v => { img with crossOrigin := some v }
  | SetupAction.setSrc v => { img with src := some v }

/-- Runs a list of property assignments on an image element. -/
def applyActions (img : ImgElem) (acts : List SetupAction) : ImgElem :=
  acts.foldl applyAction img

/-- Assignments `checkImageExists` performs on its image, in source order
(cors-fixer.js lines 16-29): `img.onload = ...`, `img.onerror = ...`,
`img.crossOrigin = "anonymous"`, `img.src = url`. -/
def checkSetupActions (url : String) : List SetupAction :=
  [SetupAction.setOnload, SetupAction.setOnerror,
   SetupAction.setCrossOrigin "anonymous", SetupAction.setSrc url]

/-- Assignments `preloadImage` performs on its image, in source order
(cors-fixer.js lines 43-56): same order as `checkImageExists`. -/
def preloadSetupActions (url : String) : List SetupAction :=
  [SetupAction.setOnload, SetupAction.setOnerror,
   SetupAction.setCrossOrigin "anonymous", SetupAction.setSrc url]

/-- Result of the synchronous part of `checkImageExists`: the per-call
image element, the timeout value handed to `setTimeout`, and the initial
probe state.  The function returns `undefined`, so the probe itself is
the only synchronous outcome. -/
structure CheckProbe where
  url : String
  timeoutMs : Int
  img : ImgElem
  st : CheckSt
deriving DecidableEq, Repr

/-- Result of the synchronous part of `preloadImage`: the per-call image
element, the timeout value handed to `setTimeout`, and the initial probe
state whose `promise` field is the pending promise the call returns. -/
structure PreloadProbe where
  url : String
  timeoutMs : Int
  img : ImgElem
  st : PreloadSt
deriving DecidableEq, Repr

/-- Synchronous part of `checkImageExists(url, callback, timeout = 5000)`
(cors-fixer.js line 7): builds a fresh image, arms the timer with the
given timeout (default 5000) and performs the four assignments. -/
def checkImageExists (url : String) (timeout : Int := 5000) : CheckProbe :=
  { url := url, timeoutMs := timeout
    img := applyActions {} (checkSetupActions url), st := checkInit }

/-- Synchronous part of `preloadImage(url, timeout = 5000)`
(cors-fixer.js line 33): builds a fresh image, arms the timer with the
given timeout (default 5000), performs the four assignments and returns
the pending promise. -/
def preloadImage (url : String) (timeout : Int := 5000) : PreloadProbe :=
  { url := url, timeoutMs := timeout
    img := applyActions {} (preloadSetupActions url), st := preloadInit }

/-- Host primitive `new Image()`: never throws, for any page state. -/
def newImagePrim : Except String ImgElem := Except.ok {}

/-- Host primitive `setTimeout(fn, delay)`: accepts any delay value
(zero and negative delays are clamped by the host, not rejected) and
never throws. -/
def setTimeoutPrim (delay : Int) : Except String Int :=
  Except.ok (max delay 0)

/-- Host primitive: assigning a handler, `crossOrigin` or `src` property
on an image never throws, for any string value including the empty
string. -/
def assignPrim (img : ImgElem) (a : SetupAction) : Except String ImgElem :=
  Except.ok (applyAction img a)

/-- The synchronous body of `checkImageExists`, with every host
primitive in the fallible monad, exactly in source order: create the
image, arm the timer, install `onload`, install `onerror`, set
`crossOrigin`, set `src`.  No input validation appears anywhere. -/
def checkImageExistsSync (url : String) (timeout : Int) :
    Except String CheckProbe := do
  let img0 ← newImagePrim
  let _ ← setTimeoutPrim timeout
  let img1 ← assignPrim img0 SetupAction.setOnload
  let img2 ← assignPrim img1 SetupAction.setOnerror
  let img3 ← assignPrim img2 (SetupAction.setCrossOrigin "anonymous")
  let img4 ← assignPrim img3 (SetupAction.setSrc url)
  pure { url := url, timeoutMs := timeout, img := img4, st := checkInit }

/-- The synchronous body of `preloadImage`, with every host primitive in
the fallible monad, exactly in source order.  The promise executor runs
synchronously inside the `Promise` constructor; no input validation
appears anywhere. -/
def preloadImageSync (url : String) (timeout : Int) :
    Except String PreloadProbe := do
  let img0 ← newImagePrim
  let _ ← setTimeoutPrim timeout
  let img1 ← assignPrim img0 SetupAction.setOnload
  let img2 ← assignPrim img1 SetupAction.setOnerror
  let img3 ← assignPrim img2 (SetupAction.setCrossOrigin "anonymous")
  let img4 ← assignPrim img3 (SetupAction.setSrc url)
  pure { url := url, timeoutMs := timeout, img := img4, st := preloadInit }

/-- Two concurrent `checkImageExists` probes on the same page: the world
holds both probe states, and the event loop delivers each tagged event to
the probe it belongs to.  Each call closes over its own `img`, `timer`
and `callback` locals, so a step touches only its own component. -/
def runCheckPair (url : String) (evts : List (Bool × Ev)) :
    CheckSt × CheckSt :=
  evts.foldl
    (fun w te =>
      if te.1 then (w.1, checkStep url w.2 te.2)
      else (checkStep url w.1 te.2, w.2))
    (checkInit, checkInit)

/-- Two concurrent `preloadImage` probes on the same page, with tagged
event delivery as in `runCheckPair`. -/
def runPreloadPair (url : String) (evts : List (Bool × Ev)) :
    PreloadSt × PreloadSt :=
  evts.foldl
    (fun w te =>
      if te.1 then (w.1, preloadStep url w.2 te.2)
      else (preloadStep url w.1 te.2, w.2))
    (preloadInit, preloadInit)

/-- Projection of an interleaved tagged event sequence onto one probe. -/
def probeEvents (tag : Bool) (evts : List (Bool × Ev)) : List Ev :=
  (evts.filter (fun te => te.1 == tag)).map Prod.snd

/-- Interleaved execution of two independent step functions over a pair
splits into the two independent executions on the projected events. -/
lemma foldl_pair_split {α β : Type} (f : α → Ev → α) (g : β → Ev → β) :
    ∀ (evts : List (Bool × Ev)) (a : α) (b : β),
      evts.foldl
        (fun w te => if te.1 then (w.1, g w.2 te.2) else (f w.1 te.2, w.2))
        (a, b)
      = ((probeEvents false evts).foldl f a, (probeEvents true evts).foldl g b) := by
  intro evts
  induction evts with
  | nil => intro a b; rfl
  | cons hd tl ih =>
      intro a b
      obtain ⟨tag, e⟩ := hd
      cases tag <;> simp [probeEvents, List.filter, ih]

/-- A JS promise never becomes pending again: once settled, every later
handler leaves the settled value unchanged. -/
lemma preloadStep_promise_mono (url : String) (s : PreloadSt) (e : Ev)
    (x : Settle) (h : s.promise = some x) :
    (preloadStep url s e).promise = some x := by
  cases e <;> simp only [preloadStep]
  case timerFire =>
    by_cases ht : s.timerActive <;> simp [ht, settle, h]
  case loadSuccess => simp [settle, h]
  case loadError => simp [settle, h]

/-- Folding further events over a settled preload probe keeps the
settled value. -/
lemma foldl_preload_promise_mono (url : String) :
    ∀ (evts : List Ev) (s : PreloadSt) (x : Settle),
      s.promise = some x →
      (evts.foldl (preloadStep url) s).promise = some x := by
  intro evts
  induction evts with
  | nil => intro s x h; exact h
  | cons e tl ih =>
      intro s x h
      exact ih _ x (preloadStep_promise_mono url s e x h)

/-- The two rejection messages of `preloadImage` differ for every URL,
so a rejection always tells a timeout apart from a load failure. -/
lemma preload_reject_msgs_ne (url : String) :
    ("Image load timeout: " ++ url) ≠ ("Failed to load image: " ++ url) := by
  intro hEq
  have hLen := congrArg String.length hEq
  simp [String.length_append] at hLen
  exact absurd hLen (by decide)

/-- C1 (counterexample): the claim says the callback of
`checkImageExists` is invoked exactly once and that whichever of the
timeout and the load-outcome handlers fires first cancels the other
path.  On the valid trace where the timer fires and the native load then
succeeds late, the callback is invoked twice — `callback(false)` from the
timer, then `callback(true)` from `onload` — because the timeout path
never detaches the image handlers. -/
theorem checkImageExists_double_callback_cex :
    ValidTrace [Ev.timerFire, Ev.loadSuccess] ∧
    (runCheck "https://img.example/a.png"
        [Ev.timerFire, Ev.loadSuccess]).callbacks = [false, true] := by
  exact ⟨by decide, rfl⟩

/-- C1 (amended): on every valid trace the callback invocations of
`checkImageExists` are exactly `checkCallbacksSpec`: a single `true` if
the load succeeds before the timeout, a single `false` if the load
errors before the timeout, a single `false` if the timeout fires and no
load outcome ever arrives — the load-outcome handlers do cancel the
timer — but when a load outcome arrives after the timeout has fired the
callback is invoked a second time, because the timeout path does not
cancel the image handlers. -/
theorem checkImageExists_callback_invocations (url : String)
    (evts : List Ev) (h : ValidTrace evts) :
    (runCheck url evts).callbacks = checkCallbacksSpec evts := by
  rcases valid_trace_enum h with rfl | rfl | rfl | rfl | rfl | rfl | rfl | rfl <;> rfl

/-- Witness for `checkImageExists_callback_invocations` at the
single-event success trace. -/
theorem checkImageExists_callback_invocations_witness :
    ValidTrace [Ev.loadSuccess] ∧
    (runCheck "https://img.example/w.png" [Ev.loadSuccess]).callbacks
      = checkCallbacksSpec [Ev.loadSuccess] :=
  ⟨by decide,
   checkImageExists_callback_invocations "https://img.example/w.png"
     [Ev.loadSuccess] (by decide)⟩

/-- C2 (counterexample): the claim says at most one of
{loaded, failed, timed-out} is ever reported per probe.  On the valid
trace where the timer of a `checkImageExists` probe fires and the native
load then errors late, the probe reports timed-out (`callback(false)`
plus the timeout warning) and then failed (`callback(false)` plus the
failure warning): two outcomes. -/
theorem check_probe_two_outcomes_cex :
    ValidTrace [Ev.timerFire, Ev.loadError] ∧
    (runCheck "https://img.example/b.png"
        [Ev.timerFire, Ev.loadError]).callbacks = [false, false] ∧
    (runCheck "https://img.example/b.png"
        [Ev.timerFire, Ev.loadError]).warns
      = ["Image check timeout: https://img.example/b.png",
         "Image failed to load: https://img.example/b.png"] := by
  exact ⟨by decide, rfl, rfl⟩

/-- C2 (amended): a `preloadImage` probe reports at most one settlement,
and once its promise is settled no later event can change the settled
value; a `checkImageExists` probe reports at most one outcome whenever
the timer does not fire first, but when the timer fires first it reports
one outcome per executed handler — two when a late load outcome follows
the timeout. -/
theorem probe_single_outcome_amended (url : String) (evts : List Ev)
    (h : ValidTrace evts) :
    (runPreload url evts).settleCount ≤ 1 ∧
    (∀ (x : Settle) (rest : List Ev),
      (runPreload url evts).promise = some x →
      (runPreload url (evts ++ rest)).promise = some x) ∧
    (timedOutFirst evts = false →
      (runCheck url evts).callbacks.length ≤ 1) ∧
    (timedOutFirst evts = true →
      (runCheck url evts).callbacks.length = evts.length) := by
  refine ⟨?_, ?_, ?_, ?_⟩
  · rcases valid_trace_enum h with rfl | rfl | rfl | rfl | rfl | rfl | rfl | rfl <;>
      simp [runPreload, preloadStep, preloadInit, settle]
  · intro x rest hx
    have := foldl_preload_promise_mono url rest (runPreload url evts) x hx
    simpa [runPreload, List.foldl_append] using this
  · intro hT
    rcases valid_trace_enum h with rfl | rfl | rfl | rfl | rfl | rfl | rfl | rfl <;>
      simp_all [runCheck, checkStep, checkInit, timedOutFirst]
  · intro hT
    rcases valid_trace_enum h with rfl | rfl | rfl | rfl | rfl | rfl | rfl | rfl <;>
      simp_all [runCheck, checkStep, checkInit, timedOutFirst]

/-- Witness for `probe_single_outcome_amended` at the single-event error
trace. -/
theorem probe_single_outcome_amended_witness :
    ValidTrace [Ev.loadError] ∧
    ((runPreload "https://img.example/w2.png" [Ev.loadError]).settleCount ≤ 1 ∧
     (∀ (x : Settle) (rest : List Ev),
       (runPreload "https://img.example/w2.png" [Ev.loadError]).promise = some x →
       (runPreload "https://img.example/w2.png" ([Ev.loadError] ++ rest)).promise
         = some x) ∧
     (timedOutFirst [Ev.loadError] = false →
       (runCheck "https://img.example/w2.png" [Ev.loadError]).callbacks.length ≤ 1) ∧
     (timedOutFirst [Ev.loadError] = true →
       (runCheck "https://img.example/w2.png" [Ev.loadError]).callbacks.length
         = [Ev.loadError].length)) :=
  ⟨by decide,
   probe_single_outcome_amended "https://img.example/w2.png" [Ev.loadError]
     (by decide)⟩

/-- C3 (counterexample): the claim says that after a timeout-first
settlement a late load event has no further observable effect.  For a
`checkImageExists` probe on the valid trace timeout-then-late-success,
the late `onload` invokes the callback a second time. -/
theorem late_load_after_timeout_effect_cex :
    ValidTrace [Ev.timerFire, Ev.loadSuccess] ∧
    (runCheck "https://img.example/c.png"
        [Ev.timerFire, Ev.loadSuccess]).callbacks.length = 2 := by
  exact ⟨by decide, rfl⟩

/-- C3 (amended): when the timer fires before any load outcome, the
probe reports failure at the timeout — the first callback value is
`false` and the promise is rejected with the timeout message — and the
`preloadImage` promise keeps that settlement with exactly one effective
settlement whatever late events follow (no second settlement, no
unhandled rejection).  The `checkImageExists` callback, however, is
invoked exactly once only when no late load event follows; a late load
event invokes it a second time. -/
theorem timeout_reports_failure_amended (url : String) (evts : List Ev)
    (h : ValidTrace evts) (hT : timedOutFirst evts = true) :
    (runCheck url evts).callbacks.head? = some false ∧
    (runPreload url evts).promise
      = some (Settle.rejected ("Image load timeout: " ++ url)) ∧
    (runPreload url evts).settleCount = 1 ∧
    ((runCheck url evts).callbacks.length = 1 ↔ evts.length = 1) := by
  rcases valid_trace_enum h with rfl | rfl | rfl | rfl | rfl | rfl | rfl | rfl <;>
    simp_all [runCheck, checkStep, checkInit, runPreload, preloadStep,
      preloadInit, settle, timedOutFirst]

/-- Witness for `timeout_reports_failure_amended` at the single-event
timeout trace. -/
theorem timeout_reports_failure_amended_witness :
    ValidTrace [Ev.timerFire] ∧
    ((runCheck "https://img.example/w3.png" [Ev.timerFire]).callbacks.head?
       = some false ∧
     (runPreload "https://img.example/w3.png" [Ev.timerFire]).promise
       = some (Settle.rejected
           ("Image load timeout: " ++ "https://img.example/w3.png")) ∧
     (runPreload "https://img.example/w3.png" [Ev.timerFire]).settleCount = 1 ∧
     ((runCheck "https://img.example/w3.png" [Ev.timerFire]).callbacks.length = 1
       ↔ [Ev.timerFire].length = 1)) :=
  ⟨by decide,
   timeout_reports_failure_amended "https://img.example/w3.png" [Ev.timerFire]
     (by decide) (by decide)⟩

/-- C4: on every valid non-empty delivery (the host always delivers at
least one event, because the armed timer comes due unless a handler
cleared it first), the promise returned by `preloadImage` is settled by
exactly one effective `resolve`/`reject`, and the timer body never runs
after the promise is settled — whichever handler settles first has
cleared the timer. -/
theorem preloadImage_single_settlement (url : String) (evts : List Ev)
    (h : ValidTrace evts) (hne : evts ≠ []) :
    (runPreload url evts).settleCount = 1 ∧
    (runPreload url evts).lateTimerFires = 0 ∧
    (runPreload url evts).promise.isSome = true := by
  rcases valid_trace_enum h with rfl | rfl | rfl | rfl | rfl | rfl | rfl | rfl <;>
    simp_all [runPreload, preloadStep, preloadInit, settle]

/-- Witness for `preloadImage_single_settlement` at the single-event
success trace. -/
theorem preloadImage_single_settlement_witness :
    ValidTrace [Ev.loadSuccess] ∧
    ((runPreload "https://img.example/w4.png" [Ev.loadSuccess]).settleCount = 1 ∧
     (runPreload "https://img.example/w4.png" [Ev.loadSuccess]).lateTimerFires = 0 ∧
     (runPreload "https://img.example/w4.png" [Ev.loadSuccess]).promise.isSome
       = true) :=
  ⟨by decide,
   preloadImage_single_settlement "https://img.example/w4.png" [Ev.loadSuccess]
     (by decide) (by decide)⟩

/-- C5: on every valid trace the promise returned by `preloadImage`
settles to `preloadOutcomeSpec`: it fulfills with exactly the `url`
string that was passed in when the load succeeds before the timeout, and
otherwise rejects with `Image load timeout: ${url}` or
`Failed to load image: ${url}` — two messages that differ for every URL,
so the rejection message distinguishes a timeout from a load failure
while both remain the same failure category. -/
theorem preloadImage_settlement_value (url : String) (evts : List Ev)
    (h : ValidTrace evts) :
    (runPreload url evts).promise = preloadOutcomeSpec url evts ∧
    ∀ u : String,
      ("Image load timeout: " ++ u) ≠ ("Failed to load image: " ++ u) := by
  refine ⟨?_, fun u => preload_reject_msgs_ne u⟩
  rcases valid_trace_enum h with rfl | rfl | rfl | rfl | rfl | rfl | rfl | rfl <;> rfl

/-- Witness for `preloadImage_settlement_value` at the single-event
success trace. -/
theorem preloadImage_settlement_value_witness :
    ValidTrace [Ev.loadSuccess] ∧
    ((runPreload "https://img.example/w5.png" [Ev.loadSuccess]).promise
       = preloadOutcomeSpec "https://img.example/w5.png" [Ev.loadSuccess] ∧
     ∀ u : String,
       ("Image load timeout: " ++ u) ≠ ("Failed to load image: " ++ u)) :=
  ⟨by decide,
   preloadImage_settlement_value "https://img.example/w5.png" [Ev.loadSuccess]
     (by decide)⟩

/-- C6: on every valid trace, each probe emits exactly one
`console.warn` line per failing outcome it reports — for
`checkImageExists` the number of warnings equals the number of `false`
callback invocations, for `preloadImage` it equals the number of
`reject` calls — and every warning embeds the probe URL after a reason
tag that tells a timeout apart from a load failure.  The warning is
non-fatal: the probe still reports its outcome through the callback or
the promise, as the other theorems show. -/
theorem warning_per_failing_outcome (url : String) (evts : List Ev)
    (h : ValidTrace evts) :
    (runCheck url evts).warns.length
      = (runCheck url evts).callbacks.count false ∧
    (runPreload url evts).warns.length
      = ((runPreload url evts).attempts.filter Settle.isRejected).length ∧
    (∀ w ∈ (runCheck url evts).warns,
      w = "Image check timeout: " ++ url ∨
      w = "Image failed to load: " ++ url) ∧
    (∀ w ∈ (runPreload url evts).warns,
      w = "Image load timeout: " ++ url ∨
      w = "Failed to load image: " ++ url) := by
  rcases valid_trace_enum h with rfl | rfl | rfl | rfl | rfl | rfl | rfl | rfl <;>
    simp [runCheck, checkStep, checkInit, runPreload, preloadStep, preloadInit,
      settle, Settle.isRejected, List.count]

/-- Witness for `warning_per_failing_outcome` at the single-event error
trace. -/
theorem warning_per_failing_outcome_witness :
    ValidTrace [Ev.loadError] ∧
    ((runCheck "https://img.example/w6.png" [Ev.loadError]).warns.length
       = (runCheck "https://img.example/w6.png" [Ev.loadError]).callbacks.count
           false ∧
     (runPreload "https://img.example/w6.png" [Ev.loadError]).warns.length
       = ((runPreload "https://img.example/w6.png" [Ev.loadError]).attempts.filter
           Settle.isRejected).length ∧
     (∀ w ∈ (runCheck "https://img.example/w6.png" [Ev.loadError]).warns,
       w = "Image check timeout: " ++ "https://img.example/w6.png" ∨
       w = "Image failed to load: " ++ "https://img.example/w6.png") ∧
     (∀ w ∈ (runPreload "https://img.example/w6.png" [Ev.loadError]).warns,
       w = "Image load timeout: " ++ "https://img.example/w6.png" ∨
       w = "Failed to load image: " ++ "https://img.example/w6.png")) :=
  ⟨by decide,
   warning_per_failing_outcome "https://img.example/w6.png" [Ev.loadError]
     (by decide)⟩

/-- C7: when the timeout argument is omitted, both `checkImageExists`
and `preloadImage` arm their timer with the default of 5000
milliseconds. -/
theorem default_timeout_is_5000 (url : String) :
    (checkImageExists url).timeoutMs = 5000 ∧
    (preloadImage url).timeoutMs = 5000 :=
  ⟨rfl, rfl⟩

/-- C8: in both operations the last property assignment of the setup
sequence is the `src` assignment that starts the load, and at that
moment the image already has `crossOrigin` set to `"anonymous"` (and no
`src` yet), so every probe requests the resource with anonymous
cross-origin credentials. -/
theorem crossOrigin_anonymous_before_src (url : String) :
    ((checkSetupActions url).getLast? = some (SetupAction.setSrc url) ∧
     (applyActions {} ((checkSetupActions url).dropLast)).crossOrigin
       = some "anonymous" ∧
     (applyActions {} ((checkSetupActions url).dropLast)).src = none ∧
     (checkImageExists url).img.crossOrigin = some "anonymous") ∧
    ((preloadSetupActions url).getLast? = some (SetupAction.setSrc url) ∧
     (applyActions {} ((preloadSetupActions url).dropLast)).crossOrigin
       = some "anonymous" ∧
     (applyActions {} ((preloadSetupActions url).dropLast)).src = none ∧
     (preloadImage url).img.crossOrigin = some "anonymous") :=
  ⟨⟨rfl, rfl, rfl, rfl⟩, ⟨rfl, rfl, rfl, rfl⟩⟩

/-- C9: two calls with the same URL are fully independent probes.  Each
call closes over its own image handle, timer and state, so running two
probes under any interleaved delivery of tagged events yields, for each
probe, exactly the state of running it alone on its own events: no
shared mutable state, no cache, and each outcome depends only on the
probe's own load attempt. -/
theorem probes_independent (url : String) (evts : List (Bool × Ev)) :
    runCheckPair url evts
      = (runCheck url (probeEvents false evts),
         runCheck url (probeEvents true evts)) ∧
    runPreloadPair url evts
      = (runPreload url (probeEvents false evts),
         runPreload url (probeEvents true evts)) :=
  ⟨foldl_pair_split (checkStep url) (checkStep url) evts checkInit checkInit,
   foldl_pair_split (preloadStep url) (preloadStep url) evts preloadInit
     preloadInit⟩

/-- C10: neither operation validates its inputs or throws synchronously.
For every url — the empty string included — and every timeout value —
zero and negative included — the fallible synchronous body returns
normally: `checkImageExists` completes with no value beyond its probe
state, and `preloadImage` completes returning a still-pending promise.
All failures are reported only through the asynchronous callback,
rejection or warning channels modelled by the step functions. -/
theorem no_synchronous_validation_or_throw (url : String) (timeout : Int) :
    checkImageExistsSync url timeout
      = Except.ok (checkImageExists url timeout) ∧
    preloadImageSync url timeout = Except.ok (preloadImage url timeout) ∧
    (preloadImage url timeout).st.promise = none :=
  ⟨rfl, rfl, rfl⟩

end CorsFixer
